import Mathlib

/-!
Verification development for the NutritionTracker repository (`tracker.py`).

The Python code stores all state in one JSON document.  We embed the parts of
that document and of the pure computations of `tracker.py` that the verified
properties are about:

* food entries and the per-day nutrient aggregation of `build_dashboard_panel`
  (lines 192-199) and `view_summary_reports` (lines 597-605);
* the weekly/monthly summary window of `view_summary_reports` (lines 584-613);
* the streak state machine `update_streaks` (lines 562-582);
* the fasting panel arithmetic of `build_dashboard_panel` (lines 230-247);
* the weight-trend advice of `view_summary_reports` (lines 616-627);
* the `scale_food_entry` operation (lines 427-439).

Python floats are modelled as rationals (`ℚ`); ISO dates as integers (day
numbers, so that `yesterday = today - 1` and ISO-string comparison and sorting
coincide with integer comparison).  Dictionary keys that may be absent are
modelled as `Option`; Python truthiness of a numeric-or-absent value
(`x or y` chains) is modelled by `truthy` below.
-/

/-- Keys of the `micros` sub-dictionary used by the aggregation code. -/
def sodiumKey : String := "sodium_mg"

def sugarKey : String := "sugar_g"

/-- A logged food entry (the dictionaries built by `process_product_selection`,
`manage_custom_food_recipes` and `scale_food_entry`).  The keys `grams` and
`serving_size_g` are absent from some entries (custom foods have only
`serving_size_g`, API entries only `grams`), hence `Option`.  The four macro
keys are present in every entry the program constructs, hence plain fields.
`micros` is the (possibly empty) `micros` dictionary as an association list;
an absent `micros` key behaves exactly like an empty one in every use
(`f.get('micros', {})`), so it is modelled as `[]`. -/
structure FoodEntry where
  name : String
  grams : Option ℚ
  serving_size_g : Option ℚ
  calories : ℚ
  protein_g : ℚ
  carbs_g : ℚ
  fats_g : ℚ
  micros : List (String × ℚ)
deriving DecidableEq, Repr

/-- Lookup `m.get(k, 0)` on the `micros` dictionary. -/
def microGet (m : List (String × ℚ)) (k : String) : ℚ :=
  match m.find? (fun kv => kv.1 == k) with
  | some kv => kv.2
  | none => 0

/-- One day's log (`daily_logs[date]` after `get_log_for_date` normalisation):
the four fixed meal buckets of `MEAL_TYPES` in their dictionary order plus the
water counter.  Workout entries and notes play no role in any verified claim
and are omitted. -/
structure DailyLog where
  breakfast : List FoodEntry
  lunch : List FoodEntry
  dinner : List FoodEntry
  snacks : List FoodEntry
  water_ml : ℚ
deriving DecidableEq, Repr

/-- The flattening `[item for meal_entries in log['meals'].values() for item in meal_entries]`:
all food entries of the day, bucket by bucket in dictionary order. -/
def DailyLog.allFood (log : DailyLog) : List FoodEntry :=
  log.breakfast ++ log.lunch ++ log.dinner ++ log.snacks

/-- The `totals` record computed at lines 194-199 of `build_dashboard_panel`:
each nutrient summed over all food entries of all meal buckets, water taken
directly from the log. -/
structure DayTotals where
  calories : ℚ
  protein : ℚ
  carbs : ℚ
  fats : ℚ
  water : ℚ
  sodium : ℚ
  sugar : ℚ
deriving DecidableEq, Repr

def dayTotals (log : DailyLog) : DayTotals :=
  let all_food := log.allFood
  { calories := (all_food.map FoodEntry.calories).sum
    protein := (all_food.map FoodEntry.protein_g).sum
    carbs := (all_food.map FoodEntry.carbs_g).sum
    fats := (all_food.map FoodEntry.fats_g).sum
    water := log.water_ml
    sodium := (all_food.map (fun f => microGet f.micros sodiumKey)).sum
    sugar := (all_food.map (fun f => microGet f.micros sugarKey)).sum }

/-- C1: For every DailyLog the computed day totals equal the sum of the
corresponding nutrient fields over all FoodEntries across all four meal
buckets, with water taken directly from the log's `water_ml` field; and the
result is independent of the order of the buckets and of the entries within
each bucket: any two logs whose combined entry lists are permutations of one
another (and that agree on water) have equal totals. -/
theorem dayTotals_correct (l₁ l₂ : DailyLog)
    (hp : List.Perm l₁.allFood l₂.allFood) (hw : l₁.water_ml = l₂.water_ml) :
    ((dayTotals l₁).calories = (l₁.allFood.map FoodEntry.calories).sum
      ∧ (dayTotals l₁).protein = (l₁.allFood.map FoodEntry.protein_g).sum
      ∧ (dayTotals l₁).carbs = (l₁.allFood.map FoodEntry.carbs_g).sum
      ∧ (dayTotals l₁).fats = (l₁.allFood.map FoodEntry.fats_g).sum
      ∧ (dayTotals l₁).water = l₁.water_ml
      ∧ (dayTotals l₁).sodium
          = (l₁.allFood.map (fun f => microGet f.micros sodiumKey)).sum
      ∧ (dayTotals l₁).sugar
          = (l₁.allFood.map (fun f => microGet f.micros sugarKey)).sum)
    ∧ dayTotals l₁ = dayTotals l₂ := by
  refine ⟨⟨rfl, rfl, rfl, rfl, rfl, rfl, rfl⟩, ?_⟩
  simp only [dayTotals, DayTotals.mk.injEq]
  exact ⟨(hp.map _).sum_eq, (hp.map _).sum_eq, (hp.map _).sum_eq,
    (hp.map _).sum_eq, hw, (hp.map _).sum_eq, (hp.map _).sum_eq⟩

/-- Concrete entries for the C1 witness. -/
def entryA : FoodEntry :=
  { name := "apple", grams := some 100, serving_size_g := none,
    calories := 100, protein_g := 5, carbs_g := 10, fats_g := 2,
    micros := [(sodiumKey, 30), (sugarKey, 4)] }

def entryB : FoodEntry :=
  { name := "bread", grams := some 50, serving_size_g := none,
    calories := 200, protein_g := 10, carbs_g := 20, fats_g := 8,
    micros := [] }

def logAB : DailyLog :=
  { breakfast := [entryA], lunch := [entryB], dinner := [], snacks := [],
    water_ml := 500 }

def logBA : DailyLog :=
  { breakfast := [], lunch := [entryB, entryA], dinner := [], snacks := [],
    water_ml := 500 }

theorem dayTotals_correct_witness :
    dayTotals logAB = dayTotals logBA ∧ (dayTotals logAB).calories = 300 :=
  ⟨(dayTotals_correct logAB logBA (List.Perm.swap entryB entryA []) rfl).2,
   by norm_num [dayTotals, DailyLog.allFood, logAB, entryA, entryB]⟩

/-! ## Weekly/monthly summary window (`view_summary_reports`, lines 584-613) -/

/-- The all-zero totals appended for an unlogged date (line 605 appends `0` to
each per-metric list). -/
def zeroDayTotals : DayTotals :=
  { calories := 0, protein := 0, carbs := 0, fats := 0, water := 0,
    sodium := 0, sugar := 0 }

/-- The dates of the reporting window:
`start_date = end_date - (num_days - 1)` and the loop
`[(start_date + timedelta(days=i)).isoformat() for i in range(num_days)]`. -/
def windowDates (endDate : ℤ) (numDays : ℕ) : List ℤ :=
  (List.range numDays).map (fun i : ℕ => endDate - ((numDays : ℤ) - 1) + (i : ℤ))

/-- The function `statistics.mean` on a nonempty list of rationals. -/
def statisticsMean (l : List ℚ) : ℚ :=
  l.sum / l.length

/-- The per-day totals computed by `view_summary_reports` (lines 590-605):
`relevant_logs` keeps exactly the logged dates inside `[start, end]`, the guard
`if not relevant_logs` aborts with a "No data found" message (modelled as
`none`), and otherwise one total per window date is produced, the all-zero
total standing in for unlogged dates.  (The code carries the calorie, protein,
carb, fat and water components in five parallel lists; we carry them in one
list of `DayTotals`.) -/
def view_summary_daily_totals (daily_logs : ℤ → Option DailyLog)
    (endDate : ℤ) (numDays : ℕ) : Option (List DayTotals) :=
  if (windowDates endDate numDays).all (fun d => (daily_logs d).isNone) then
    none
  else
    some ((windowDates endDate numDays).map (fun d =>
      match daily_logs d with
      | some log => dayTotals log
      | none => zeroDayTotals))

/-- C2 (amended): for a 7- or 30-day window ending at `endDate` that contains
at least one logged date, the summary produces exactly one total per date of
the window inclusive — the day's totals when a log exists, the zero totals
otherwise — and the `statistics.mean` average of every per-metric column
divides by the full calendar span `numDays`, never by the number of logged
days.  (A window with no logged date at all produces no report; see the
counterexample.) -/
theorem view_summary_spec (daily_logs : ℤ → Option DailyLog)
    (endDate : ℤ) (numDays : ℕ) (_hn : numDays = 7 ∨ numDays = 30)
    (hne : ∃ d ∈ windowDates endDate numDays, (daily_logs d).isSome) :
    ∃ totals, view_summary_daily_totals daily_logs endDate numDays = some totals
      ∧ totals.length = numDays
      ∧ totals = (windowDates endDate numDays).map (fun d =>
          match daily_logs d with
          | some log => dayTotals log
          | none => zeroDayTotals)
      ∧ ∀ f : DayTotals → ℚ,
          statisticsMean (totals.map f) = (totals.map f).sum / numDays := by
  obtain ⟨d, hd, hds⟩ := hne
  have hguard : ¬ (windowDates endDate numDays).all
      (fun d => (daily_logs d).isNone) := by
    simp only [List.all_eq_true, Option.isNone_iff_eq_none]
    intro h
    rw [h d hd] at hds
    simp at hds
  have hwlen : (windowDates endDate numDays).length = numDays := by
    rw [windowDates, List.length_map, List.length_range]
  refine ⟨_, by simp [view_summary_daily_totals, hguard], ?_, rfl, ?_⟩
  · rw [List.length_map, hwlen]
  · intro f
    rw [statisticsMean, List.length_map, List.length_map, hwlen]

/-- Concrete logs for the C2 witness: a 7-day window ending at day 6 with
logged days 0, 2 and 4 and no log on the other four days. -/
def entryDay0 : FoodEntry :=
  { name := "a", grams := some 100, serving_size_g := none,
    calories := 100, protein_g := 1, carbs_g := 2, fats_g := 3, micros := [] }

def entryDay2 : FoodEntry :=
  { name := "b", grams := some 100, serving_size_g := none,
    calories := 200, protein_g := 4, carbs_g := 5, fats_g := 6, micros := [] }

def entryDay4 : FoodEntry :=
  { name := "c", grams := some 100, serving_size_g := none,
    calories := 300, protein_g := 7, carbs_g := 8, fats_g := 9, micros := [] }

def logDay0 : DailyLog :=
  { breakfast := [entryDay0], lunch := [], dinner := [], snacks := [],
    water_ml := 500 }

def logDay2 : DailyLog :=
  { breakfast := [], lunch := [entryDay2], dinner := [], snacks := [],
    water_ml := 700 }

def logDay4 : DailyLog :=
  { breakfast := [], lunch := [], dinner := [entryDay4], snacks := [],
    water_ml := 900 }

def logsThreeOfSeven : ℤ → Option DailyLog := fun d =>
  if d = 0 then some logDay0
  else if d = 2 then some logDay2
  else if d = 4 then some logDay4
  else none

theorem view_summary_spec_witness :
    ∃ totals,
      view_summary_daily_totals logsThreeOfSeven 6 7 = some totals
      ∧ totals.length = 7
      ∧ totals.map DayTotals.calories = [100, 0, 200, 0, 300, 0, 0]
      ∧ statisticsMean (totals.map DayTotals.calories) = 600 / 7 := by
  obtain ⟨totals, h1, h2, h3, h4⟩ :=
    view_summary_spec logsThreeOfSeven 6 7 (Or.inl rfl)
      ⟨0, by decide, by rfl⟩
  refine ⟨totals, h1, h2, ?_, ?_⟩
  · rw [h3]
    norm_num [windowDates, logsThreeOfSeven, dayTotals, DailyLog.allFood,
      logDay0, logDay2, logDay4, entryDay0, entryDay2, entryDay4, zeroDayTotals,
      List.range_succ]
  · rw [h4 DayTotals.calories, h3]
    norm_num [windowDates, logsThreeOfSeven, dayTotals, DailyLog.allFood,
      logDay0, logDay2, logDay4, entryDay0, entryDay2, entryDay4, zeroDayTotals,
      List.range_succ]

/-- C2 counterexample: a 7-day (or 30-day) window in which no date has a
DailyLog produces no report at all — the code prints "No data found" and
returns before computing any per-day totals — rather than the seven
(or thirty) zero totals and zero mean the claim calls for. -/
theorem view_summary_no_data_counterexample :
    view_summary_daily_totals (fun _ => none) 6 7 = none
    ∧ view_summary_daily_totals (fun _ => none) 6 30 = none := by
  constructor <;> rfl

/-! ## Streak tracker (`update_streaks`, lines 562-582) -/

/-- The calorie and water goals consulted by `update_streaks`
(`goals.get('calories', 0)` and `goals.get('water_ml', 2500)`; both keys are
always present in a profile built by `setup_user_profile`, so they are plain
fields). -/
structure Goals where
  calories : ℚ
  water_ml : ℚ
deriving DecidableEq, Repr

/-- The `streaks` record: two counters and the last evaluation date (absent —
`None` — on a fresh profile). -/
structure Streaks where
  calorie_goal : ℕ
  water_goal : ℕ
  last_checked_date : Option ℤ
deriving DecidableEq, Repr

/-- The function `update_streaks` (lines 562-582), with dates as integers
(`yesterday = today - 1`).
1. `last_checked_date == today` → no-op;
2. `last_checked_date != yesterday` → both counters reset to 0;
3. if yesterday's log exists, the calorie counter becomes `previous + 1`
   when `total_calories > 0 and abs(total_calories - goal) <= 100` and `0`
   otherwise, and the water counter becomes `previous + 1` when
   `water_ml >= water goal` and `0` otherwise;
4. `last_checked_date` is set to today. -/
def update_streaks (s : Streaks) (daily_logs : ℤ → Option DailyLog)
    (goals : Goals) (today : ℤ) : Streaks :=
  if s.last_checked_date = some today then s
  else
    let yesterday := today - 1
    let s1 := if s.last_checked_date ≠ some yesterday then
        { s with calorie_goal := 0, water_goal := 0 }
      else s
    match daily_logs yesterday with
    | some ylog =>
        let total_calories := (ylog.allFood.map FoodEntry.calories).sum
        { calorie_goal :=
            if 0 < total_calories ∧ |total_calories - goals.calories| ≤ 100
            then s1.calorie_goal + 1 else 0,
          water_goal :=
            if goals.water_ml ≤ ylog.water_ml then s1.water_goal + 1 else 0,
          last_checked_date := some today }
    | none => { s1 with last_checked_date := some today }

/-- C3: when evaluation runs (`last_checked_date` is not today) and a log
exists for yesterday, the calorie counter becomes exactly one more than its
post-gap-reset value iff yesterday's calories are positive and within 100 of
the goal (and 0 otherwise), and the water counter becomes exactly one more
than its post-gap-reset value iff yesterday's water meets the water goal
(and 0 otherwise). -/
theorem update_streaks_step (s : Streaks) (daily_logs : ℤ → Option DailyLog)
    (goals : Goals) (today : ℤ) (ylog : DailyLog)
    (hns : s.last_checked_date ≠ some today)
    (hy : daily_logs (today - 1) = some ylog) :
    (update_streaks s daily_logs goals today).calorie_goal =
      (if 0 < (ylog.allFood.map FoodEntry.calories).sum
          ∧ |(ylog.allFood.map FoodEntry.calories).sum - goals.calories| ≤ 100
       then (if s.last_checked_date = some (today - 1)
             then s.calorie_goal else 0) + 1
       else 0)
    ∧ (update_streaks s daily_logs goals today).water_goal =
      (if goals.water_ml ≤ ylog.water_ml
       then (if s.last_checked_date = some (today - 1)
             then s.water_goal else 0) + 1
       else 0)
    ∧ (update_streaks s daily_logs goals today).last_checked_date
        = some today := by
  rw [update_streaks, if_neg hns]
  simp only [hy]
  by_cases hgap : s.last_checked_date = some (today - 1) <;>
    simp [hgap]

/-- Concrete data for the C3 witness: goal 2000 kcal / 2500 ml, yesterday
(day 9) logged 1950 kcal and 2600 ml, streaks last evaluated on day 9 with
counters 3 and 2; evaluated on day 10 both counters advance by exactly 1. -/
def goalsW : Goals := { calories := 2000, water_ml := 2500 }

def streaksW : Streaks :=
  { calorie_goal := 3, water_goal := 2, last_checked_date := some 9 }

def ylogW : DailyLog :=
  { breakfast := [{ entryA with calories := 1950 }], lunch := [],
    dinner := [], snacks := [], water_ml := 2600 }

def dailyLogsW : ℤ → Option DailyLog := fun d =>
  if d = 9 then some ylogW else none

theorem update_streaks_step_witness :
    (update_streaks streaksW dailyLogsW goalsW 10).calorie_goal =
      (if 0 < (ylogW.allFood.map FoodEntry.calories).sum
          ∧ |(ylogW.allFood.map FoodEntry.calories).sum - goalsW.calories| ≤ 100
       then (if streaksW.last_checked_date = some (10 - 1)
             then streaksW.calorie_goal else 0) + 1
       else 0)
    ∧ (update_streaks streaksW dailyLogsW goalsW 10).water_goal =
      (if goalsW.water_ml ≤ ylogW.water_ml
       then (if streaksW.last_checked_date = some (10 - 1)
             then streaksW.water_goal else 0) + 1
       else 0)
    ∧ (update_streaks streaksW dailyLogsW goalsW 10).last_checked_date
        = some 10 :=
  update_streaks_step streaksW dailyLogsW goalsW 10 ylogW
    (by simp [streaksW]) (by rfl)

/-- C4 counterexample: with `last_checked_date = yesterday` (so evaluation
runs: it is not today) and **no** log for yesterday, `update_streaks` leaves
both counters at their previous nonzero values — the gap reset at line 568 is
skipped because `last_checked_date == yesterday`, and the `if yesterday_log:`
body is skipped because there is no log — contradicting the claim that both
streaks are set to 0. -/
theorem update_streaks_no_log_counterexample :
    streaksW.last_checked_date ≠ some 10
    ∧ (fun _ : ℤ => (none : Option DailyLog)) (10 - 1) = none
    ∧ update_streaks streaksW (fun _ => none) goalsW 10 =
        { calorie_goal := 3, water_goal := 2, last_checked_date := some 10 }
    ∧ (update_streaks streaksW (fun _ => none) goalsW 10).calorie_goal ≠ 0 := by
  refine ⟨by simp [streaksW], rfl, ?_, by simp [update_streaks, streaksW]⟩
  simp [update_streaks, streaksW]

/-- C4 (amended): when evaluation runs (`last_checked_date` is not today) and
no DailyLog exists for yesterday, both streak counters are set to 0 exactly
when `last_checked_date` is also different from yesterday (the gap reset);
when `last_checked_date` equals yesterday the counters are left unchanged.
In both cases only `last_checked_date` is advanced to today. -/
theorem update_streaks_no_log (s : Streaks) (daily_logs : ℤ → Option DailyLog)
    (goals : Goals) (today : ℤ)
    (hns : s.last_checked_date ≠ some today)
    (hy : daily_logs (today - 1) = none) :
    update_streaks s daily_logs goals today =
      if s.last_checked_date = some (today - 1) then
        { s with last_checked_date := some today }
      else
        { calorie_goal := 0, water_goal := 0, last_checked_date := some today }
      := by
  rw [update_streaks, if_neg hns]
  simp only [hy]
  by_cases hgap : s.last_checked_date = some (today - 1) <;> simp [hgap]

/-- A streak state whose last evaluation was several days ago (a gap). -/
def streaksGap : Streaks :=
  { calorie_goal := 5, water_goal := 4, last_checked_date := some 3 }

theorem update_streaks_no_log_witness :
    update_streaks streaksGap (fun _ => none) goalsW 10 =
      (if streaksGap.last_checked_date = some (10 - 1) then
        { streaksGap with last_checked_date := some 10 }
      else
        { calorie_goal := 0, water_goal := 0,
          last_checked_date := some 10 }) :=
  update_streaks_no_log streaksGap (fun _ => none) goalsW 10
    (by simp [streaksGap]) rfl

/-- Helper for C5: whatever branch `update_streaks` takes when it is not a
no-op, the resulting `last_checked_date` is today. -/
theorem update_streaks_last_checked (s : Streaks)
    (daily_logs : ℤ → Option DailyLog) (goals : Goals) (today : ℤ)
    (hns : s.last_checked_date ≠ some today) :
    (update_streaks s daily_logs goals today).last_checked_date
      = some today := by
  rw [update_streaks, if_neg hns]
  cases h2 : daily_logs (today - 1) <;> simp [h2]

/-- Helper for C5: a state already evaluated today is left untouched. -/
theorem update_streaks_noop (s : Streaks) (daily_logs : ℤ → Option DailyLog)
    (goals : Goals) (today : ℤ) (h : s.last_checked_date = some today) :
    update_streaks s daily_logs goals today = s := by
  rw [update_streaks, if_pos h]

/-- C5: streak evaluation is idempotent within a calendar day: for every
stored state and fixed today, running the evaluation twice yields the same
`Streaks` as running it once — the second run is a no-op because after one
run `last_checked_date` equals today (and a state already evaluated today is
returned unchanged). -/
theorem update_streaks_idempotent (s : Streaks)
    (daily_logs : ℤ → Option DailyLog) (goals : Goals) (today : ℤ) :
    update_streaks (update_streaks s daily_logs goals today)
        daily_logs goals today
      = update_streaks s daily_logs goals today := by
  by_cases h : s.last_checked_date = some today
  · rw [update_streaks_noop s daily_logs goals today h,
      update_streaks_noop s daily_logs goals today h]
  · exact update_streaks_noop _ daily_logs goals today
      (update_streaks_last_checked s daily_logs goals today h)

/-! ## Fasting panel (`build_dashboard_panel`, lines 230-247) and the
division guards of the dashboard -/

/-- The persisted `fasting` record: `start_time` is `None` until a fast is
started (Python also treats an empty string as falsy; both are `none` here),
`duration_hours` comes from an integer prompt. -/
structure FastingData where
  active : Bool
  start_time : Option ℚ
  duration_hours : ℚ
deriving DecidableEq, Repr

/-- What the fasting panel shows. `fault` models the `ZeroDivisionError`
Python raises at line 237 (`elapsed_sec / duration_sec`) when
`duration_sec = 0`; Lean's total `/` would silently return 0 there, so the
zero denominator is split out as an explicit error outcome. -/
inductive FastingView where
  | noFast : FastingView
  | fault : FastingView
  | status (elapsed_sec remaining_sec progress : ℚ) : FastingView
deriving DecidableEq, Repr

/-- Lines 230-247: when a fast is active and has a start time, compute
`duration_sec = duration_hours * 3600`, `elapsed_sec = now - start`,
`progress = min(elapsed_sec / duration_sec, 1.0)` and
`remaining_sec = max(0, duration_sec - elapsed_sec)`; otherwise show the
"No active fast" panel. -/
def fasting_panel (f : FastingData) (now : ℚ) : FastingView :=
  match f.active, f.start_time with
  | true, some start =>
      let duration_sec := f.duration_hours * 3600
      if duration_sec = 0 then FastingView.fault
      else
        let elapsed_sec := now - start
        FastingView.status elapsed_sec
          (max 0 (duration_sec - elapsed_sec))
          (min (elapsed_sec / duration_sec) 1)
  | _, _ => FastingView.noFast

/-- Line 215: `progress = min(current / goal, 1.0) if goal > 0 else 0` for
each dashboard metric row. -/
def dashboard_goal_progress (current goal : ℚ) : ℚ :=
  if 0 < goal then min (current / goal) 1 else 0

/-- C6: while a fast is active with start time `start` and positive duration
`d` hours, the panel at time `now` shows `elapsed = now - start`,
`remaining = max 0 (d * 3600 - elapsed)` and
`progress = min (elapsed / (d * 3600)) 1`. -/
theorem fasting_panel_formulas (start d now : ℚ) (hd : 0 < d) :
    fasting_panel ⟨true, some start, d⟩ now =
      FastingView.status (now - start)
        (max 0 (d * 3600 - (now - start)))
        (min ((now - start) / (d * 3600)) 1) := by
  have hne : d * 3600 ≠ 0 := by positivity
  simp [fasting_panel, hne]

/-- C6 witness: a fast started at `T = 0` with duration 16 h, viewed at
`T + 10 h = 36000 s`: elapsed 10 h, remaining 6 h (21600 s), progress 0.625. -/
theorem fasting_panel_formulas_witness :
    fasting_panel ⟨true, some 0, 16⟩ 36000 =
      FastingView.status 36000 21600 (5 / 8) := by
  rw [fasting_panel_formulas 0 16 36000 (by norm_num)]
  norm_num

/-- C10: the goal-denominator guard of the dashboard does hold
(`dashboard_goal_progress` yields 0, not a fault, on a zero goal), but the
fasting panel has no such guard: the reachable state "active fast with a
stored duration of 0 hours" (the duration prompt accepts any integer) makes
line 237 divide by zero and raise `ZeroDivisionError` instead of producing a
result. -/
theorem fasting_zero_duration_fault :
    (∀ current : ℚ, dashboard_goal_progress current 0 = 0)
    ∧ fasting_panel ⟨true, some 0, 0⟩ 3600 = FastingView.fault := by
  constructor
  · intro current
    simp [dashboard_goal_progress]
  · norm_num [fasting_panel]

/-! ## Scaling a food entry (`scale_food_entry`, lines 427-439) -/

/-- Python truthiness of a numeric-or-absent dictionary value, as used by the
chain `food_entry.get('serving_size_g') or food_entry.get('grams') or 100.0`:
an absent key (`None`) and the number `0` are both falsy. -/
def truthy : Option ℚ → Option ℚ
  | some v => if v = 0 then none else some v
  | none => none

/-- Line 429: `base_grams = food_entry.get('serving_size_g') or food_entry.get('grams')
or 100.0`. -/
def base_grams (e : FoodEntry) : ℚ :=
  ((truthy e.serving_size_g).getD ((truthy e.grams).getD 100))

/-- The entry returned by `scale_food_entry` for a requested amount `grams`
(lines 427-439): `None` if `base_grams == 0` (unreachable through the falsy
chain, which never produces 0, but mirrored from line 430), otherwise a copy
of the entry with `grams` set to the requested amount, the four macro fields
multiplied by `scale = grams / base_grams`, and every `micros` value
multiplied by `scale`.  Note that `serving_size_g` is NOT updated.  In every
entry the program builds the four macro keys are present and their values and
the `micros` values are numbers, so `if key in scaled_entry` is always true
and the `or 0` fallbacks never fire. -/
def scale_food_entry (e : FoodEntry) (grams : ℚ) : Option FoodEntry :=
  if base_grams e = 0 then none
  else
    let scale := grams / base_grams e
    some { e with
      grams := some grams,
      calories := e.calories * scale,
      protein_g := e.protein_g * scale,
      carbs_g := e.carbs_g * scale,
      fats_g := e.fats_g * scale,
      micros := e.micros.map (fun kv => (kv.1, kv.2 * scale)) }

/-- The value of the SOURCE entry after `scale_food_entry` returns (C9).
`scaled_entry = food_entry.copy()` (line 432) is a *shallow* copy: the
`micros` value is the same dictionary object in the copy and in the source.
The top-level assignments at lines 433-435 rebind keys of the copy only, but
the loop at lines 437-438 assigns scaled values into the shared `micros`
dictionary, so after the call the source entry's `micros` holds the scaled
values while all its top-level fields are unchanged.  When `micros` is empty
(falsy) the guard at line 436 skips the loop, and when `base_grams == 0` the
function returns at line 430 before any mutation. -/
def scale_food_entry_source (e : FoodEntry) (grams : ℚ) : FoodEntry :=
  if base_grams e = 0 then e
  else if e.micros = [] then e
  else { e with
    micros := e.micros.map (fun kv => (kv.1, kv.2 * (grams / base_grams e))) }

/-- C8 counterexample: an entry carrying a `serving_size_g` key (every custom
food does, and `scale_food_entry` copies it unchanged into its result) breaks
the round-trip law: with `serving_size_g = grams = 100` and 100 kcal, scaling
to 200 g and back to 100 g yields 200 kcal, not the original 100 — the second
scaling still divides by the stale `serving_size_g`, not by the new grams. -/
def entryWithServing : FoodEntry :=
  { name := "oats", grams := some 100, serving_size_g := some 100,
    calories := 100, protein_g := 10, carbs_g := 10, fats_g := 5,
    micros := [] }

theorem scale_round_trip_counterexample :
    ((scale_food_entry entryWithServing 200).bind
        (fun e2 => scale_food_entry e2 100)).map FoodEntry.calories
      = some 200
    ∧ entryWithServing.calories = 100 := by
  constructor
  · norm_num [scale_food_entry, base_grams, truthy, entryWithServing]
  · rfl

/-- C8 (amended): for every FoodEntry whose `serving_size_g` key is absent or
zero (so the scaling base is the entry's own `grams` field, as for every
API-sourced entry) and whose grams are `g1 > 0`, scaling to `g2 > 0` and then
scaling the result back to `g1` reproduces the original entry exactly —
calories, protein, carbs, fats, grams and every micros value. -/
theorem scale_round_trip (e : FoodEntry) (g1 g2 : ℚ)
    (hs : truthy e.serving_size_g = none)
    (hg : e.grams = some g1) (h1 : 0 < g1) (h2 : 0 < g2) :
    (scale_food_entry e g2).bind (fun e2 => scale_food_entry e2 g1)
      = some e := by
  obtain ⟨nm, gr, ss, c, p, cb, ft, mi⟩ := e
  simp only at hs hg
  subst hg
  have h1' : g1 ≠ 0 := ne_of_gt h1
  have h2' : g2 ≠ 0 := ne_of_gt h2
  have hb1 : base_grams ⟨nm, some g1, ss, c, p, cb, ft, mi⟩ = g1 := by
    simp only [base_grams, hs]
    simp [truthy, h1']
  have hx : (g2 / g1) * (g1 / g2) = 1 := by
    rw [div_mul_div_comm, mul_comm]
    exact div_self (mul_ne_zero h1' h2')
  have harr : ∀ x : ℚ, x * (g2 / g1) * (g1 / g2) = x := fun x => by
    rw [mul_assoc, hx, mul_one]
  have hb2 : base_grams ⟨nm, some g2, ss, c * (g2 / g1), p * (g2 / g1),
      cb * (g2 / g1), ft * (g2 / g1),
      mi.map (fun kv => (kv.1, kv.2 * (g2 / g1)))⟩ = g2 := by
    simp only [base_grams, hs]
    simp [truthy, h2']
  simp only [scale_food_entry, hb1, h1', if_neg, ite_false, reduceIte,
    if_neg h1', Option.some_bind]
  simp only [scale_food_entry, hb2, if_neg h2']
  have hmi : List.map ((fun kv : String × ℚ => (kv.1, kv.2 * (g1 / g2)))
      ∘ fun kv : String × ℚ => (kv.1, kv.2 * (g2 / g1))) mi = mi := by
    have hpt : ∀ kv ∈ mi,
        ((fun kv : String × ℚ => (kv.1, kv.2 * (g1 / g2)))
          ∘ fun kv : String × ℚ => (kv.1, kv.2 * (g2 / g1))) kv = id kv := by
      intro kv _
      simp only [Function.comp_apply, id_eq]
      rw [harr kv.2]
    rw [List.map_congr_left hpt, List.map_id]
  simp [List.map_map, hmi, harr]

/-- An API-style entry: no `serving_size_g` key, so the scaling base is its
own `grams`. -/
def entryNoServing : FoodEntry :=
  { name := "rice", grams := some 4, serving_size_g := none,
    calories := 8, protein_g := 2, carbs_g := 4, fats_g := 1,
    micros := [(sugarKey, 6)] }

theorem scale_round_trip_witness :
    (scale_food_entry entryNoServing 10).bind
        (fun e2 => scale_food_entry e2 4) = some entryNoServing :=
  scale_round_trip entryNoServing 4 10 rfl rfl (by norm_num) (by norm_num)

/-- C9: `scale_food_entry` does return a fresh entry, but it does NOT leave
the source entry unchanged: because `food_entry.copy()` is a shallow copy,
scaling `entryWithMicros` (100 g, sodium 100) to 200 g overwrites the shared
`micros` dictionary, so the source ends up with sodium 200 while its
top-level fields (grams, calories, name, ...) keep their original values —
the logged source entry no longer keeps its nutrient/grams ratio. -/
def entryWithMicros : FoodEntry :=
  { name := "soup", grams := some 100, serving_size_g := none,
    calories := 50, protein_g := 2, carbs_g := 3, fats_g := 1,
    micros := [(sodiumKey, 100)] }

theorem scale_mutates_source :
    scale_food_entry_source entryWithMicros 200 ≠ entryWithMicros
    ∧ (scale_food_entry_source entryWithMicros 200).micros
        = [(sodiumKey, 200)]
    ∧ (scale_food_entry_source entryWithMicros 200).calories
        = entryWithMicros.calories
    ∧ (scale_food_entry_source entryWithMicros 200).grams
        = entryWithMicros.grams
    ∧ (scale_food_entry_source entryWithMicros 200).name
        = entryWithMicros.name := by
  norm_num [scale_food_entry_source, base_grams, truthy, entryWithMicros,
    FoodEntry.mk.injEq]

/-! ## Weight-trend advice (`view_summary_reports`, lines 616-627) -/

/-- The three advice messages of lines 623-626, carrying the suggested
calorie target. -/
inductive Advice where
  | reduce (target : ℚ) : Advice
  | increaseSlowLoss (target : ℚ) : Advice
  | increaseBulk (target : ℚ) : Advice
deriving DecidableEq, Repr

/-- Line 620: `statistics.mean(c for c in daily_cals if c > 0)` when some day
has positive calories, else 0 — days with zero calories are excluded from
this average. -/
def avg_positive_calories (daily_cals : List ℚ) : ℚ :=
  if daily_cals.any (fun c => decide (0 < c)) then
    statisticsMean (daily_cals.filter (fun c => decide (0 < c)))
  else 0

/-- Line 618: `sorted(relevant_weights.items())` sorts the (date, weight) pairs
lexicographically; the dates are distinct dictionary keys, so this is
chronological order.  ISO date strings compare like the integers that model
them. -/
def dateLe (a b : ℤ × ℚ) : Prop := a.1 ≤ b.1

instance : DecidableRel dateLe := fun a b => inferInstanceAs (Decidable (a.1 ≤ b.1))

/-- Lines 616-627: advice is considered only when at least two weight entries
fall in the period and the period is weekly.  `weight_change` is last minus
first weight of the date-sorted entries; with `goal_weight < current_weight`
(cutting) the code advises `avg - 200` when `weight_change > -0.2` and
`avg + 150` when `weight_change < -1.0`; otherwise (bulking/maintaining) it
advises `avg + 250` when `weight_change < 0.2`; in all remaining cases the
advice string stays empty and no panel is shown (`none`). -/
def trend_advice (relevant_weights : List (ℤ × ℚ)) (daily_cals : List ℚ)
    (goal_weight current_weight : ℚ) (weekly : Bool) : Option Advice :=
  if 2 ≤ relevant_weights.length ∧ weekly = true then
    let sorted_weights := List.insertionSort dateLe relevant_weights
    let weight_change :=
      (sorted_weights.getLastD (0, 0)).2 - (sorted_weights.headD (0, 0)).2
    let avg_calories := avg_positive_calories daily_cals
    if goal_weight < current_weight then
      if -0.2 < weight_change then
        some (Advice.reduce (avg_calories - 200))
      else if weight_change < -1 then
        some (Advice.increaseSlowLoss (avg_calories + 150))
      else none
    else
      if weight_change < 0.2 then
        some (Advice.increaseBulk (avg_calories + 250))
      else none
  else none

/-- C7: for chronologically sorted weight entries, weekly advice exists only
with at least 2 entries; with `weight_change` = last − first weight and
`avg_calories` the mean over positive-calorie days, cutting
(`goal_weight < current_weight`) advises `avg - 200` iff
`weight_change > -0.2`, `avg + 150` iff `weight_change < -1.0`;
bulking/maintaining advises `avg + 250` iff `weight_change < 0.2`; an
intermediate, on-target change produces no advice, and a monthly period
never produces advice. -/
theorem trend_advice_spec (relevant_weights : List (ℤ × ℚ))
    (daily_cals : List ℚ) (goal_weight current_weight : ℚ)
    (hs : List.Sorted dateLe relevant_weights) :
    (trend_advice relevant_weights daily_cals goal_weight current_weight true =
      if 2 ≤ relevant_weights.length then
        (let weight_change := (relevant_weights.getLastD (0, 0)).2
            - (relevant_weights.headD (0, 0)).2
         let avg_calories := avg_positive_calories daily_cals
         if goal_weight < current_weight then
           if -0.2 < weight_change then
             some (Advice.reduce (avg_calories - 200))
           else if weight_change < -1 then
             some (Advice.increaseSlowLoss (avg_calories + 150))
           else none
         else
           if weight_change < 0.2 then
             some (Advice.increaseBulk (avg_calories + 250))
           else none)
      else none)
    ∧ trend_advice relevant_weights daily_cals goal_weight current_weight false
        = none := by
  constructor
  · simp only [trend_advice, List.Sorted.insertionSort_eq hs, and_true]
  · simp [trend_advice]

/-- C7 witness (the spec's own example): weights day 1: 80.0 kg, day 7:
79.9 kg, goal 75 kg < current 79.9 kg (cutting), weight change −0.1 > −0.2,
average over the three positive-calorie days 2000 kcal → advice to reduce to
1800 kcal. -/
def weightsW : List (ℤ × ℚ) := [(1, 80), (7, 799 / 10)]

def calsW : List ℚ := [2000, 0, 2000, 0, 2000, 0, 0]

theorem trend_advice_spec_witness :
    trend_advice weightsW calsW 75 (799 / 10) true
      = some (Advice.reduce 1800) := by
  have hs : List.Sorted dateLe weightsW := by
    simp [weightsW, List.sorted_cons, dateLe]
  rw [(trend_advice_spec weightsW calsW 75 (799 / 10) hs).1]
  norm_num [weightsW, calsW, avg_positive_calories, statisticsMean]
